import Mathlib

/-!
Verification of `vectors.py`, a module for working with 2D vectors.

The Python class `Vector` is shallowly embedded as follows.  A Python number
(`int`, `bool` — a subclass of `int` — or `float`) is modelled by `PyNum`,
with `float` values represented exactly as rationals, since none of the
verified properties depends on rounding.  The results of `math.sqrt` and
`math.acos` are real numbers.  A raising operation returns
`Except PyErr α`; `PyErr` lists the exception classes the module raises.
All operations are pure: a `Vec` is never mutated, mirroring the
value-semantics of the Python class (methods only read `self.x`, `self.y`
and return fresh objects).
-/

/-- A Python number.  `bool` is a subclass of `int`, so every `PyNum` passes
an `isinstance(·, (int, float))` check.  Python `float`s are modelled as
exact rationals. -/
inductive PyNum where
  | int : Int → PyNum
  | bool : Bool → PyNum
  | float : ℚ → PyNum
deriving DecidableEq, Repr

/-- The numeric value of a Python number; `True` compares equal to `1` and
`False` to `0` because `bool` is an `int` subclass. -/
def PyNum.val : PyNum → ℚ
  | .int n => (n : ℚ)
  | .bool b => if b then 1 else 0
  | .float q => q

/-- The state of a `Vector` instance: its attributes `self.x` and `self.y`,
stored as their numeric values. -/
structure Vec where
  x : ℚ
  y : ℚ
deriving DecidableEq, Repr

/-- A Python object passed as an operand: a number, a `Vector` instance, or
any other object (a string, a list, ...), identified by an opaque tag. -/
inductive PyObj where
  | num : PyNum → PyObj
  | vec : Vec → PyObj
  | other : Nat → PyObj
deriving DecidableEq, Repr

/-- The exception classes raised by `vectors.py`.  `typeError` is the spec's
`InvalidArgument`, `zeroDivisionError` its `DivisionByZero`,
`notImplementedError` its `Unsupported`; `valueError` is what `math.sqrt`
and `math.acos` raise on a domain error. -/
inductive PyErr where
  | typeError
  | zeroDivisionError
  | notImplementedError
  | valueError
deriving DecidableEq, Repr

/-- `Vector.__init__`: raises `TypeError` unless both arguments are numbers
(the `isinstance(x, (int, float))` check, which `bool` passes); otherwise
stores the coordinates. -/
def Vec.init (x y : PyObj) : Except PyErr Vec :=
  match x, y with
  | .num a, .num b => .ok ⟨a.val, b.val⟩
  | _, _ => .error .typeError

/-- `Vector.__add__`: component-wise sum; `TypeError` if `other` is not a
`Vector`. -/
def Vec.add (self : Vec) (other : PyObj) : Except PyErr Vec :=
  match other with
  | .vec o => .ok ⟨self.x + o.x, self.y + o.y⟩
  | _ => .error .typeError

/-- `Vector.__sub__`: component-wise difference; `TypeError` if `other` is
not a `Vector`. -/
def Vec.sub (self : Vec) (other : PyObj) : Except PyErr Vec :=
  match other with
  | .vec o => .ok ⟨self.x - o.x, self.y - o.y⟩
  | _ => .error .typeError

/-- The result of `Vector.__mul__`: a dot product (a number) or a scaled
vector, depending on the operand's runtime type. -/
inductive MulRes where
  | scalar : ℚ → MulRes
  | vector : Vec → MulRes
deriving DecidableEq, Repr

/-- `Vector.__mul__`: if `other` is a `Vector`, the dot product
`self.x * other.x + self.y * other.y`; else if `other` is a number, the
scaled vector; otherwise `TypeError`. -/
def Vec.mul (self : Vec) (other : PyObj) : Except PyErr MulRes :=
  match other with
  | .vec o => .ok (.scalar (self.x * o.x + self.y * o.y))
  | .num n => .ok (.vector ⟨self.x * n.val, self.y * n.val⟩)
  | _ => .error .typeError

/-- `Vector.__rmul__` (reached for `k * v` after `k.__mul__(v)` returns
`NotImplemented` for a number `k`): simply `self.__mul__(other)`. -/
def Vec.rmul (self : Vec) (other : PyObj) : Except PyErr MulRes :=
  Vec.mul self other

/-- `Vector.__truediv__`: `TypeError` if `other` is not a number,
`ZeroDivisionError` if `other == 0`, otherwise the component-wise
quotient. -/
def Vec.truediv (self : Vec) (other : PyObj) : Except PyErr Vec :=
  match other with
  | .num n =>
      if n.val = 0 then .error .zeroDivisionError
      else .ok ⟨self.x / n.val, self.y / n.val⟩
  | _ => .error .typeError

/-- `math.sqrt`: raises `ValueError` on a negative argument, otherwise
returns the square root as a float. -/
noncomputable def mathSqrt (q : ℚ) : Except PyErr ℝ :=
  if q < 0 then .error .valueError else .ok (Real.sqrt (q : ℝ))

/-- `Vector.__abs__`: `math.sqrt(self.x ** 2 + self.y ** 2)`. -/
noncomputable def Vec.abs (self : Vec) : Except PyErr ℝ :=
  mathSqrt (self.x ^ 2 + self.y ^ 2)

/-- `Vector.__pow__`: always raises `NotImplementedError`. -/
def Vec.pow (_self : Vec) (_power : PyObj) : Except PyErr Unit :=
  .error .notImplementedError

/-- `Vector.__eq__`: `isinstance(other, Vector) and self.x == other.x and
self.y == other.y`.  Always returns a `bool`, never raises. -/
def Vec.eq (self : Vec) (other : PyObj) : Bool :=
  match other with
  | .vec o => self.x == o.x && self.y == o.y
  | _ => false

/-- `Vector.__neg__`: the vector with both components multiplied by `-1`. -/
def Vec.neg (self : Vec) : Vec :=
  ⟨self.x * (-1), self.y * (-1)⟩

open Classical in
/-- Python float division `a / b`: CPython raises `ZeroDivisionError` when
the divisor equals `0.0` — it does NOT return an IEEE special value. -/
noncomputable def floatDiv (a b : ℝ) : Except PyErr ℝ :=
  if b = 0 then .error .zeroDivisionError else .ok (a / b)

open Classical in
/-- `math.acos`: raises `ValueError` when the argument is outside
`[-1, 1]`, otherwise returns the inverse cosine in radians. -/
noncomputable def mathAcos (r : ℝ) : Except PyErr ℝ :=
  if r < -1 ∨ 1 < r then .error .valueError else .ok (Real.arccos r)

/-- `Vector.angle_between`: `TypeError` if `other` is not a `Vector`; then
`res = (self * other) / (abs(self) * abs(other))` (a dot product divided by
a float product, raising `ZeroDivisionError` when the divisor is `0.0`),
clamped by `res = max(-1.0, min(1.0, res))`, and finally `math.acos(res)`.
The nested matches spell out exception propagation through the
subexpressions. -/
noncomputable def Vec.angle_between (self : Vec) (other : PyObj) :
    Except PyErr ℝ :=
  match other with
  | .vec o =>
      match Vec.abs self, Vec.abs o with
      | .ok ma, .ok mb =>
          match floatDiv ((self.x * o.x + self.y * o.y : ℚ) : ℝ) (ma * mb) with
          | .ok res => mathAcos (max (-1) (min 1 res))
          | .error e => .error e
      | .error e, _ => .error e
      | .ok _, .error e => .error e
  | _ => .error .typeError

/-- The result of `Vector.normalize`: a `Vector` whose components are the
floats `self.x / mod`, `self.y / mod`, modelled as reals. -/
structure RVec where
  x : ℝ
  y : ℝ

open Classical in
/-- `Vector.normalize`: `mod = abs(self)`; if `mod` is truthy (a nonzero
float) return `Vector(self.x / mod, self.y / mod)`, else raise
`ZeroDivisionError`.  `self` is not mutated (the embedding is pure). -/
noncomputable def Vec.normalize (self : Vec) : Except PyErr RVec :=
  match Vec.abs self with
  | .ok mod =>
      if mod ≠ 0 then .ok ⟨self.x / mod, self.y / mod⟩
      else .error .zeroDivisionError
  | .error e => .error e

/-- The magnitude of a vector as a real number: the value `Vector.__abs__`
returns (see `vecAbs_eq`). -/
noncomputable def mag (v : Vec) : ℝ :=
  Real.sqrt ((v.x : ℝ) ^ 2 + (v.y : ℝ) ^ 2)

lemma vecAbs_eq (v : Vec) : Vec.abs v = .ok (mag v) := by
  have hnn : (0 : ℚ) ≤ v.x ^ 2 + v.y ^ 2 := by positivity
  unfold Vec.abs mathSqrt
  rw [if_neg (not_lt.mpr hnn)]
  unfold mag
  congr 1
  push_cast
  ring

lemma mag_eq_zero_iff (v : Vec) : mag v = 0 ↔ v.x = 0 ∧ v.y = 0 := by
  rw [mag, Real.sqrt_eq_zero']
  constructor
  · intro h
    have hx : (v.x : ℝ) = 0 := by
      nlinarith [sq_nonneg (v.x : ℝ), sq_nonneg (v.y : ℝ)]
    have hy : (v.y : ℝ) = 0 := by
      nlinarith [sq_nonneg (v.x : ℝ), sq_nonneg (v.y : ℝ)]
    exact ⟨by exact_mod_cast hx, by exact_mod_cast hy⟩
  · rintro ⟨hx, hy⟩
    rw [hx, hy]
    norm_num

/-- Claim C2: for every Vector `a`, `abs(a)` returns the floating-point
value `sqrt(x² + y²)` and never raises an error (the argument of
`math.sqrt` is a sum of squares, hence never negative). -/
theorem claim_C2_abs_total (a : Vec) :
    Vec.abs a = .ok (Real.sqrt ((a.x : ℝ) ^ 2 + (a.y : ℝ) ^ 2)) :=
  vecAbs_eq a

/-- Claim C3: for all numeric `x`, `y`, the sum
`Vector(x, y) + Vector(0, 0)` succeeds and compares equal (by the type's
own `__eq__`) to `Vector(x, y)`: the zero vector is an additive
identity. -/
theorem claim_C3_add_zero (x y : ℚ) :
    ∃ w : Vec, Vec.add ⟨x, y⟩ (.vec ⟨0, 0⟩) = .ok w
      ∧ Vec.eq w (.vec ⟨x, y⟩) = true := by
  refine ⟨⟨x + 0, y + 0⟩, rfl, ?_⟩
  simp [Vec.eq]

/-- Claim C4: `a * b` dispatches on the runtime kind of `b`: dot product
for a Vector, component-wise scaling for a number, `TypeError`
(`InvalidArgument`) for anything else. -/
theorem claim_C4_mul_dispatch (a : Vec) :
    (∀ b : Vec, Vec.mul a (.vec b) = .ok (.scalar (a.x * b.x + a.y * b.y)))
    ∧ (∀ n : PyNum, Vec.mul a (.num n) =
        .ok (.vector ⟨a.x * n.val, a.y * n.val⟩))
    ∧ (∀ t : Nat, Vec.mul a (.other t) = .error .typeError) :=
  ⟨fun _ => rfl, fun _ => rfl, fun _ => rfl⟩

/-- Claim C5: `a / b` raises `TypeError` (`InvalidArgument`) when `b` is
not a number, `ZeroDivisionError` (`DivisionByZero`) when `b` is a number
equal to `0`, and otherwise returns `Vector(a.x / b, a.y / b)`. -/
theorem claim_C5_div (a : Vec) :
    (∀ t : Nat, Vec.truediv a (.other t) = .error .typeError)
    ∧ (∀ b : Vec, Vec.truediv a (.vec b) = .error .typeError)
    ∧ (∀ n : PyNum, n.val = 0 →
        Vec.truediv a (.num n) = .error .zeroDivisionError)
    ∧ (∀ n : PyNum, n.val ≠ 0 →
        Vec.truediv a (.num n) = .ok ⟨a.x / n.val, a.y / n.val⟩) := by
  refine ⟨fun _ => rfl, fun _ => rfl, fun n h => ?_, fun n h => ?_⟩
  · simp [Vec.truediv, h]
  · simp [Vec.truediv, h]

/-- Witness for C5 at concrete inputs: `Vector(3, 4) / 0` raises
`ZeroDivisionError` and `Vector(3, 4) / 2 == Vector(1.5, 2.0)`. -/
theorem claim_C5_div_witness :
    (PyNum.int 0).val = 0 ∧ (PyNum.int 2).val ≠ 0
    ∧ Vec.truediv ⟨3, 4⟩ (.num (.int 0)) = .error .zeroDivisionError
    ∧ Vec.truediv ⟨3, 4⟩ (.num (.int 2)) = .ok ⟨3 / 2, 4 / 2⟩ :=
  ⟨by norm_num [PyNum.val], by norm_num [PyNum.val],
   (claim_C5_div ⟨3, 4⟩).2.2.1 (.int 0) (by norm_num [PyNum.val]),
   by
    have h := (claim_C5_div ⟨3, 4⟩).2.2.2 (.int 2) (by norm_num [PyNum.val])
    rw [h]
    norm_num [PyNum.val]⟩

/-- Claim C8: `a == b` is true iff `b` is a Vector with equal components;
against a non-Vector it returns false (a value, not an error — `__eq__`
is total). -/
theorem claim_C8_eq (a : Vec) (b : PyObj) :
    (Vec.eq a b = true ↔ ∃ o : Vec, b = .vec o ∧ a.x = o.x ∧ a.y = o.y)
    ∧ (∀ n : PyNum, Vec.eq a (.num n) = false)
    ∧ (∀ t : Nat, Vec.eq a (.other t) = false) := by
  refine ⟨?_, fun _ => rfl, fun _ => rfl⟩
  cases b <;> simp [Vec.eq]

/-- Claim C9: for every Vector `v` and number `k`, `k * v` (which Python
routes to `__rmul__`) returns exactly the result of `v * k`, namely the
scaled vector; in particular `2 * Vector(3,4) == Vector(6,8) ==
Vector(3,4) * 2`. -/
theorem claim_C9_rmul (v : Vec) (k : PyNum) :
    Vec.rmul v (.num k) = Vec.mul v (.num k)
    ∧ Vec.rmul v (.num k) = .ok (.vector ⟨v.x * k.val, v.y * k.val⟩)
    ∧ Vec.rmul ⟨3, 4⟩ (.num (.int 2)) = .ok (.vector ⟨6, 8⟩)
    ∧ Vec.mul ⟨3, 4⟩ (.num (.int 2)) = .ok (.vector ⟨6, 8⟩) := by
  refine ⟨rfl, rfl, ?_, ?_⟩ <;> norm_num [Vec.rmul, Vec.mul, PyNum.val]

/-- Claim C10: `bool` is accepted wherever a number is required:
`Vector(True, False)` constructs with components `1` and `0`;
`v * True` is `v` scaled by `1`; `v / False` raises `ZeroDivisionError`
(not `TypeError`) because `False == 0`. -/
theorem claim_C10_bool (v : Vec) :
    Vec.init (.num (.bool true)) (.num (.bool false)) = .ok ⟨1, 0⟩
    ∧ Vec.mul v (.num (.bool true)) = .ok (.vector ⟨v.x, v.y⟩)
    ∧ Vec.truediv v (.num (.bool false)) = .error .zeroDivisionError := by
  refine ⟨rfl, ?_, ?_⟩
  · simp [Vec.mul, PyNum.val]
  · simp [Vec.truediv, PyNum.val]

lemma mathAcos_clamp (r : ℝ) :
    mathAcos (max (-1) (min 1 r)) = .ok (Real.arccos (max (-1) (min 1 r))) := by
  have h : ¬(max (-1) (min 1 r) < -1 ∨ 1 < max (-1) (min 1 r)) := by
    push_neg
    exact ⟨le_max_left _ _, max_le (by norm_num) (min_le_left _ _)⟩
  unfold mathAcos
  rw [if_neg h]

/-- Claim C1 is false on the code: at the concrete input
`Vector(0, 0).angle_between(Vector(1, 0))` an error IS raised — the
division `(self * other) / (abs(self) * abs(other))` has divisor `0.0`,
and CPython raises `ZeroDivisionError` for float division by zero instead
of producing an IEEE special value for `acos` to consume. -/
theorem claim_C1_counterexample :
    Vec.angle_between ⟨0, 0⟩ (.vec ⟨1, 0⟩) = .error .zeroDivisionError := by
  have h0 : mag ⟨0, 0⟩ = 0 := (mag_eq_zero_iff _).mpr ⟨rfl, rfl⟩
  simp [Vec.angle_between, vecAbs_eq, floatDiv, h0]

/-- Claim C1 (amended): when either operand of `angle_between` has zero
magnitude, the internal division by the product of magnitudes raises
`ZeroDivisionError`, which propagates to the caller; `acos` is never
reached. -/
theorem claim_C1_zero_mag_raises (a b : Vec)
    (h : (a.x = 0 ∧ a.y = 0) ∨ (b.x = 0 ∧ b.y = 0)) :
    Vec.angle_between a (.vec b) = .error .zeroDivisionError := by
  have hz : mag a * mag b = 0 := by
    rcases h with h | h
    · rw [(mag_eq_zero_iff a).mpr h, zero_mul]
    · rw [(mag_eq_zero_iff b).mpr h, mul_zero]
  simp [Vec.angle_between, vecAbs_eq, floatDiv, hz]

/-- Witness for the amended C1 at the zero vector against `Vector(2, 0)`. -/
theorem claim_C1_zero_mag_raises_witness :
    (((0 : ℚ) = 0 ∧ (0 : ℚ) = 0) ∨ ((2 : ℚ) = 0 ∧ (0 : ℚ) = 0))
    ∧ Vec.angle_between ⟨0, 0⟩ (.vec ⟨2, 0⟩) = .error .zeroDivisionError :=
  ⟨Or.inl ⟨rfl, rfl⟩, claim_C1_zero_mag_raises ⟨0, 0⟩ ⟨2, 0⟩ (Or.inl ⟨rfl, rfl⟩)⟩

/-- Claim C6 is false as universally stated: at the concrete input
`Vector(0, 0).angle_between(Vector(0, 1))` the method does not return the
clamped inverse cosine — it raises `ZeroDivisionError`. -/
theorem claim_C6_counterexample :
    Vec.angle_between ⟨0, 0⟩ (.vec ⟨0, 1⟩) = .error .zeroDivisionError := by
  have h0 : mag ⟨0, 0⟩ = 0 := (mag_eq_zero_iff _).mpr ⟨rfl, rfl⟩
  simp [Vec.angle_between, vecAbs_eq, floatDiv, h0]

/-- Claim C6 (amended): for vectors of nonzero magnitude, `angle_between`
returns `acos` of the ratio `(a·b) / (|a|·|b|)` clamped to `[-1, 1]` by
`max(-1.0, min(1.0, ·))`; the clamped value is inside `acos`'s domain, so
no domain failure occurs. -/
theorem claim_C6_clamped_acos (a b : Vec)
    (ha : ¬(a.x = 0 ∧ a.y = 0)) (hb : ¬(b.x = 0 ∧ b.y = 0)) :
    Vec.angle_between a (.vec b) =
      .ok (Real.arccos (max (-1) (min 1
        (((a.x * b.x + a.y * b.y : ℚ) : ℝ) / (mag a * mag b))))) := by
  have hma : mag a ≠ 0 := fun h => ha ((mag_eq_zero_iff a).mp h)
  have hmb : mag b ≠ 0 := fun h => hb ((mag_eq_zero_iff b).mp h)
  have hprod : mag a * mag b ≠ 0 := mul_ne_zero hma hmb
  simp [Vec.angle_between, vecAbs_eq, floatDiv, hprod, mathAcos_clamp]

/-- Witness for the amended C6 at `Vector(1, 0)` and `Vector(0, 1)`. -/
theorem claim_C6_clamped_acos_witness :
    ¬((1 : ℚ) = 0 ∧ (0 : ℚ) = 0) ∧ ¬((0 : ℚ) = 0 ∧ (1 : ℚ) = 0)
    ∧ Vec.angle_between ⟨1, 0⟩ (.vec ⟨0, 1⟩) =
      .ok (Real.arccos (max (-1) (min 1
        (((1 * 0 + 0 * 1 : ℚ) : ℝ) / (mag ⟨1, 0⟩ * mag ⟨0, 1⟩))))) :=
  ⟨by norm_num, by norm_num,
   claim_C6_clamped_acos ⟨1, 0⟩ ⟨0, 1⟩ (by norm_num) (by norm_num)⟩

/-- Claim C7: `normalize` raises `ZeroDivisionError` iff the magnitude is
zero, and otherwise returns the vector `(x / |a|, y / |a|)`; the receiver
is never mutated (the embedding is pure by construction). -/
theorem claim_C7_normalize (a : Vec) :
    (Vec.normalize a = .error .zeroDivisionError ↔ mag a = 0)
    ∧ (mag a ≠ 0 →
        Vec.normalize a = .ok ⟨(a.x : ℝ) / mag a, (a.y : ℝ) / mag a⟩) := by
  by_cases hm : mag a = 0
  · have hE : Vec.normalize a = .error .zeroDivisionError := by
      simp [Vec.normalize, vecAbs_eq, hm]
    exact ⟨⟨fun _ => hm, fun _ => hE⟩, fun hn => absurd hm hn⟩
  · have hO : Vec.normalize a =
        .ok ⟨(a.x : ℝ) / mag a, (a.y : ℝ) / mag a⟩ := by
      simp [Vec.normalize, vecAbs_eq, hm]
    refine ⟨⟨fun hcontra => ?_, fun h0 => absurd h0 hm⟩, fun _ => hO⟩
    rw [hO] at hcontra
    exact Except.noConfusion hcontra

/-- Witness for C7 at `Vector(3, 4)`, whose magnitude `5` is nonzero. -/
theorem claim_C7_normalize_witness :
    mag ⟨3, 4⟩ ≠ 0
    ∧ Vec.normalize ⟨3, 4⟩ =
        .ok ⟨((3 : ℚ) : ℝ) / mag ⟨3, 4⟩, ((4 : ℚ) : ℝ) / mag ⟨3, 4⟩⟩ := by
  have h : mag ⟨3, 4⟩ ≠ 0 := by
    have h25 : mag ⟨3, 4⟩ = Real.sqrt 25 := by
      unfold mag
      norm_num
    rw [h25]
    positivity
  exact ⟨h, (claim_C7_normalize ⟨3, 4⟩).2 h⟩
